import Mathlib

/-!
Verification of the advanced RAG chat pipeline
(`src/fastapi_app/rag_advanced.py`, class `AdvancedRAGChat`).

The pipeline is shallowly embedded: external collaborators (the
`build_messages` token budgeter, the chat-completion transport, the
Postgres retrieval gateway) are supplied as oracle functions in an
`Env` record, and `run` additionally returns the ordered trace of the
external calls it issued together with their full argument records.
Python machine details are kept faithful: dict truthiness for the
deployment toggle and the `prompt_template` override, `str.join`
semantics for the sources block, dict-comprehension semantics for
`data_points`, `IndexError` on `messages[-1]` of an empty list.
-/

namespace RagAdvanced

/-- Content of a chat message: Python `message["content"]` is either a
string, a list of content parts, or some other non-string value. -/
inductive Content
  | str (s : String)
  | parts (l : List String)
  | null
  deriving DecidableEq, Repr

/-- A conversation turn, `ChatCompletionMessageParam`: role plus content. -/
structure ChatMessage where
  role : String
  content : Content
  deriving DecidableEq, Repr

/-- A structured retrieval filter predicate derived from tool-call
arguments and passed verbatim to the retrieval gateway. -/
structure SearchFilter where
  column : String
  comparator : String
  value : String
  deriving DecidableEq, Repr

/-- One parameter of a declared tool function. -/
structure ToolParam where
  name : String
  type : String
  required : Bool
  deriving DecidableEq, Repr

/-- Schema of one callable tool function offered to the model. -/
structure ToolSchema where
  name : String
  description : String
  params : List ToolParam
  deriving DecidableEq, Repr

/-- Arguments payload of a tool call as seen by the argument extractor:
either a well-formed structured payload carrying a refined query and
filters, or an unparsable raw blob. -/
inductive ToolArgs
  | wellFormed (query : String) (filters : List SearchFilter)
  | malformed (raw : String)
  deriving DecidableEq, Repr

/-- A tool invocation emitted by the model. -/
structure ToolCall where
  name : String
  args : ToolArgs
  deriving DecidableEq, Repr

/-- The message of one completion choice: role, optional text content,
and the tool calls it carries. -/
structure CompletionMessage where
  role : String
  content : Option String
  tool_calls : List ToolCall
  deriving DecidableEq, Repr

/-- One choice of a chat completion. -/
structure Choice where
  message : CompletionMessage
  deriving DecidableEq, Repr

/-- A chat completion returned by the chat-completion transport. -/
structure ChatCompletion where
  choices : List Choice
  deriving DecidableEq, Repr

/-- An item returned by the retrieval gateway: its id, its rendering
for RAG prompts (`to_str_for_rag`), and its serialized dict form
(`to_dict`), the latter two kept opaque. -/
structure RetrievalItem where
  id : String
  strForRag : String
  dict : String
  deriving DecidableEq, Repr

/-- The recognized per-call overrides, one optional field per key the
code reads with `overrides.get`. -/
structure Overrides where
  retrieval_mode : Option String := none
  top : Option Int := none
  temperature : Option ℚ := none
  prompt_template : Option String := none
  deriving DecidableEq, Repr

/-- Arguments of one `build_messages` invocation. -/
structure BuildArgs where
  model : String
  system_prompt : String
  new_user_content : String
  past_messages : List ChatMessage
  max_tokens : Int
  fallback_to_default : Bool
  deriving DecidableEq, Repr

/-- Arguments of one `chat.completions.create` invocation. -/
structure ChatRequest where
  messages : List ChatMessage
  model : String
  temperature : ℚ
  max_tokens : Int
  n : Nat
  tools : Option (List ToolSchema)
  tool_choice : Option String
  stream : Option Bool
  deriving DecidableEq, Repr

/-- Arguments of one `searcher.search_and_embed` invocation. -/
structure SearchRequest where
  query_text : String
  top : Int
  enable_vector_search : Bool
  enable_text_search : Bool
  filters : List SearchFilter
  deriving DecidableEq, Repr

/-- One external call issued by `run`, in issue order. -/
inductive CallEvent
  | buildCall (args : BuildArgs)
  | chatCall (req : ChatRequest)
  | searchCall (req : SearchRequest)
  deriving DecidableEq, Repr

/-- Errors `run` can raise: the `ValueError` for non-string last-message
content, and the `IndexError` from indexing an empty sequence. -/
inductive RunError
  | invalidInput
  | indexError
  deriving DecidableEq, Repr

/-- A value in a thought step's `props` map. -/
inductive PropVal
  | str (s : String)
  | int (n : Int)
  | bool (b : Bool)
  | filters (fs : List SearchFilter)
  deriving DecidableEq, Repr

/-- A thought step's description: a plain string, a list of stringified
messages, or a list of result dicts. -/
inductive ThoughtDescription
  | text (s : String)
  | texts (l : List String)
  | dictList (l : List String)
  deriving DecidableEq, Repr

/-- One trace step of the response: title, description, optional props. -/
structure ThoughtStep where
  title : String
  description : ThoughtDescription
  props : Option (List (String × PropVal)) := none
  deriving DecidableEq, Repr

/-- The answer message of the response. -/
structure Message where
  content : String
  role : String
  deriving DecidableEq, Repr

/-- The context of the response: `data_points` (a Python dict, modelled
as its key-ordered association list) and the thought steps. -/
structure RAGContext where
  data_points : List (String × String)
  thoughts : List ThoughtStep
  deriving DecidableEq, Repr

/-- The terminal response object of a successful run. -/
structure RetrievalResponse where
  message : Message
  context : RAGContext
  deriving DecidableEq, Repr

/-- Construction-time configuration of `AdvancedRAGChat`. -/
structure Config where
  chat_model : String
  chat_deployment : Option String
  chat_token_limit : Int
  query_prompt_template : String
  answer_prompt_template : String

/-- The external collaborators, as oracle functions. -/
structure Env where
  buildMessages : BuildArgs → List ChatMessage
  chatComplete : ChatRequest → ChatCompletion
  search : SearchRequest → List RetrievalItem

/-- Python truthiness of an `Optional[str]`: `None` and `""` are falsy. -/
def strOptTruthy : Option String → Bool
  | none => false
  | some s => s ≠ ""

/-- Python `str()` of an `Optional[str]` value: `str(None) = "None"`. -/
def pyStrOfOpt : Option String → String
  | none => "None"
  | some s => s

/-- Rendering used for `str(message)` on a message dict in the thought
steps; no claim inspects its exact form. -/
def msgToString (m : ChatMessage) : String :=
  "role=" ++ m.role ++ ";content=" ++
    (match m.content with
     | .str s => s
     | .parts l => String.intercalate "|" l
     | .null => "None")

/-- Insert one key/value pair with Python-dict semantics: an existing
key keeps its position and takes the new value, a new key is appended. -/
def pyDictInsert (d : List (String × String)) (k v : String) :
    List (String × String) :=
  if d.any (fun p => p.1 = k) then
    d.map (fun p => if p.1 = k then (k, v) else p)
  else
    d ++ [(k, v)]

/-- The Python dict built by a comprehension over an ordered list of
key/value pairs. -/
def pyDict (l : List (String × String)) : List (String × String) :=
  l.foldl (fun d p => pyDictInsert d p.1 p.2) []

/-- Modelled from the spec: `build_search_function` of
`query_rewriter.py` is not under `src/`; per §4.2 the schema declares
one callable "search" function with a free-text query parameter and an
optional structured filter parameter. -/
def build_search_function : List ToolSchema :=
  [{ name := "search"
     description := "Search the database for relevant items"
     params := [{ name := "search_query", type := "string", required := true },
                { name := "filters", type := "object", required := false }] }]

/-- The tool invocation requesting a search in a completion's first
choice, when one is present. -/
def searchToolCall? (c : ChatCompletion) : Option ToolArgs :=
  match c.choices.head? with
  | none => none
  | some ch =>
      (ch.message.tool_calls.find? (fun tc => tc.name = "search")).map
        (fun tc => tc.args)

/-- Modelled from the spec: `extract_search_arguments` of
`query_rewriter.py` is not under `src/`; per §4.2, a structured search
tool invocation with well-formed arguments yields (refined query,
filters); freeform text, no tool invocation, or malformed arguments
fall back to the original query verbatim with an empty filter list,
without raising. -/
def extract_search_arguments (originalQuery : String)
    (c : ChatCompletion) : String × List SearchFilter :=
  match searchToolCall? c with
  | some (.wellFormed q fs) => (q, fs)
  | some (.malformed _) => (originalQuery, [])
  | none => (originalQuery, [])

/-- The model-metadata props recorded on the first and fourth thought
steps: both names when the deployment is truthy, only the base model
name otherwise. -/
def modelProps (cfg : Config) : List (String × PropVal) :=
  match cfg.chat_deployment with
  | some d =>
      if d = "" then [("model", .str cfg.chat_model)]
      else [("model", .str cfg.chat_model), ("deployment", .str d)]
  | none => [("model", .str cfg.chat_model)]

/-- The model identifier passed to `chat.completions.create`:
`self.chat_deployment if self.chat_deployment else self.chat_model`. -/
def resolvedModel (cfg : Config) : String :=
  match cfg.chat_deployment with
  | some d => if d = "" then cfg.chat_model else d
  | none => cfg.chat_model

/-- `text_search = overrides.get("retrieval_mode") in ["text", "hybrid", None]`. -/
def text_search (o : Overrides) : Bool :=
  [some "text", some "hybrid", none].contains o.retrieval_mode

/-- `vector_search = overrides.get("retrieval_mode") in ["vectors", "hybrid", None]`. -/
def vector_search (o : Overrides) : Bool :=
  [some "vectors", some "hybrid", none].contains o.retrieval_mode

/-- `top = overrides.get("top", 3)`. -/
def topOf (o : Overrides) : Int :=
  o.top.getD 3

/-- `past_messages = messages[:-1]`. -/
def past_messages (messages : List ChatMessage) : List ChatMessage :=
  messages.dropLast

/-- The arguments of the first `build_messages` call (query generation,
`max_tokens = self.chat_token_limit - query_response_token_limit` with
`query_response_token_limit = 500`); `q` is `original_user_query`. -/
def query_build_args (cfg : Config) (messages : List ChatMessage)
    (q : String) : BuildArgs :=
  { model := cfg.chat_model
    system_prompt := cfg.query_prompt_template
    new_user_content := q
    past_messages := past_messages messages
    max_tokens := cfg.chat_token_limit - 500
    fallback_to_default := true }

/-- `query_messages = build_messages(...)`. -/
def query_messages (cfg : Config) (env : Env) (messages : List ChatMessage)
    (q : String) : List ChatMessage :=
  env.buildMessages (query_build_args cfg messages q)

/-- The arguments of the first `chat.completions.create` call. -/
def query_chat_request (cfg : Config) (env : Env)
    (messages : List ChatMessage) (q : String) : ChatRequest :=
  { messages := query_messages cfg env messages q
    model := resolvedModel cfg
    temperature := 0
    max_tokens := 500
    n := 1
    tools := some build_search_function
    tool_choice := some "auto"
    stream := none }

/-- `chat_completion = await ...create(...)` (first call). -/
def query_completion (cfg : Config) (env : Env)
    (messages : List ChatMessage) (q : String) : ChatCompletion :=
  env.chatComplete (query_chat_request cfg env messages q)

/-- `query_text, filters = extract_search_arguments(original_user_query,
chat_completion)`. -/
def extracted (cfg : Config) (env : Env) (messages : List ChatMessage)
    (q : String) : String × List SearchFilter :=
  extract_search_arguments q (query_completion cfg env messages q)

/-- The arguments of the `searcher.search_and_embed` call. -/
def search_request (cfg : Config) (env : Env) (messages : List ChatMessage)
    (o : Overrides) (q : String) : SearchRequest :=
  { query_text := (extracted cfg env messages q).1
    top := topOf o
    enable_vector_search := vector_search o
    enable_text_search := text_search o
    filters := (extracted cfg env messages q).2 }

/-- `results = await self.searcher.search_and_embed(...)`. -/
def results (cfg : Config) (env : Env) (messages : List ChatMessage)
    (o : Overrides) (q : String) : List RetrievalItem :=
  env.search (search_request cfg env messages o q)

/-- `content = "\n".join(sources_content)` where `sources_content`
renders each item as `f"[{(item.id)}]:{item.to_str_for_rag()}\n\n"`. -/
def sources_block (cfg : Config) (env : Env) (messages : List ChatMessage)
    (o : Overrides) (q : String) : String :=
  String.intercalate "\n"
    ((results cfg env messages o q).map
      (fun item => "[" ++ item.id ++ "]:" ++ item.strForRag ++ "\n\n"))

/-- `overrides.get("prompt_template") or self.answer_prompt_template`:
a falsy (absent or empty) override falls back to the default template. -/
def answer_system_prompt (cfg : Config) (o : Overrides) : String :=
  match o.prompt_template with
  | some t => if t = "" then cfg.answer_prompt_template else t
  | none => cfg.answer_prompt_template

/-- The arguments of the second `build_messages` call (answer
generation, `max_tokens = self.chat_token_limit - response_token_limit`
with `response_token_limit = 1024`). -/
def answer_build_args (cfg : Config) (env : Env)
    (messages : List ChatMessage) (o : Overrides) (q : String) : BuildArgs :=
  { model := cfg.chat_model
    system_prompt := answer_system_prompt cfg o
    new_user_content := q ++ "\n\nSources:\n" ++ sources_block cfg env messages o q
    past_messages := past_messages messages
    max_tokens := cfg.chat_token_limit - 1024
    fallback_to_default := true }

/-- `contextual_messages = build_messages(...)`. -/
def contextual_messages (cfg : Config) (env : Env)
    (messages : List ChatMessage) (o : Overrides) (q : String) :
    List ChatMessage :=
  env.buildMessages (answer_build_args cfg env messages o q)

/-- The arguments of the second `chat.completions.create` call. -/
def answer_chat_request (cfg : Config) (env : Env)
    (messages : List ChatMessage) (o : Overrides) (q : String) : ChatRequest :=
  { messages := contextual_messages cfg env messages o q
    model := resolvedModel cfg
    temperature := o.temperature.getD (3 / 10)
    max_tokens := 1024
    n := 1
    tools := none
    tool_choice := none
    stream := some false }

/-- `chat_completion_response = await ...create(...)` (second call). -/
def answer_completion (cfg : Config) (env : Env)
    (messages : List ChatMessage) (o : Overrides) (q : String) :
    ChatCompletion :=
  env.chatComplete (answer_chat_request cfg env messages o q)

/-- The ordered trace of external calls a validated run issues. -/
def run_call_list (cfg : Config) (env : Env) (messages : List ChatMessage)
    (o : Overrides) (q : String) : List CallEvent :=
  [CallEvent.buildCall (query_build_args cfg messages q),
   CallEvent.chatCall (query_chat_request cfg env messages q),
   CallEvent.searchCall (search_request cfg env messages o q),
   CallEvent.buildCall (answer_build_args cfg env messages o q),
   CallEvent.chatCall (answer_chat_request cfg env messages o q)]

/-- The four thought steps of the response, in construction order. -/
def thought_steps (cfg : Config) (env : Env) (messages : List ChatMessage)
    (o : Overrides) (q : String) : List ThoughtStep :=
  [{ title := "Prompt to generate search arguments"
     description := .texts ((query_messages cfg env messages q).map msgToString)
     props := some (modelProps cfg) },
   { title := "Search using generated search arguments"
     description := .text (extracted cfg env messages q).1
     props := some
       [("top", .int (topOf o)),
        ("vector_search", .bool (vector_search o)),
        ("text_search", .bool (text_search o)),
        ("filters", .filters (extracted cfg env messages q).2)] },
   { title := "Search results"
     description := .dictList ((results cfg env messages o q).map
       (fun r => r.dict))
     props := none },
   { title := "Prompt to generate answer"
     description := .texts ((contextual_messages cfg env messages o q).map
       msgToString)
     props := some (modelProps cfg) }]

/-- The `RetrievalResponse` a successful run constructs, given the
first choice `fc` of the answer completion. -/
def response_of (cfg : Config) (env : Env) (messages : List ChatMessage)
    (o : Overrides) (q : String) (fc : Choice) : RetrievalResponse :=
  { message :=
      { content := pyStrOfOpt fc.message.content
        role := fc.message.role }
    context :=
      { data_points :=
          pyDict ((results cfg env messages o q).map
            (fun item => (item.id, item.dict)))
        thoughts := thought_steps cfg env messages o q } }

/-- `AdvancedRAGChat.run`: the two-phase pipeline, returning the trace
of external calls it issued and either an error or the response.
`messages[-1]` on an empty list raises `IndexError`; a non-string
last-message content raises the `ValueError`; `choices[0]` of a
choice-less answer completion raises `IndexError`. -/
def run (cfg : Config) (env : Env) (messages : List ChatMessage)
    (o : Overrides) : List CallEvent × Except RunError RetrievalResponse :=
  match messages.getLast? with
  | none => ([], .error .indexError)
  | some lastMsg =>
    match lastMsg.content with
    | .str q =>
        (run_call_list cfg env messages o q,
         match (answer_completion cfg env messages o q).choices.head? with
         | none => .error .indexError
         | some fc => .ok (response_of cfg env messages o q fc))
    | _ => ([], .error .invalidInput)

/-- The `build_messages` calls of a trace, in order. -/
def buildCallsOf (r : List CallEvent × Except RunError RetrievalResponse) :
    List BuildArgs :=
  r.1.filterMap (fun e => match e with | .buildCall a => some a | _ => none)

/-- The chat-completion calls of a trace, in order. -/
def chatCallsOf (r : List CallEvent × Except RunError RetrievalResponse) :
    List ChatRequest :=
  r.1.filterMap (fun e => match e with | .chatCall a => some a | _ => none)

/-- The retrieval calls of a trace, in order. -/
def searchCallsOf (r : List CallEvent × Except RunError RetrievalResponse) :
    List SearchRequest :=
  r.1.filterMap (fun e => match e with | .searchCall a => some a | _ => none)

section Samples

/-- A sample configuration with a deployment configured. -/
def cfgA : Config :=
  { chat_model := "gpt"
    chat_deployment := some "dep"
    chat_token_limit := 4096
    query_prompt_template := "QPROMPT"
    answer_prompt_template := "APROMPT" }

/-- A sample environment: the tool-calling completion answers the first
(tools-carrying) request with a well-formed search tool call, the
second with plain text; retrieval returns two items. -/
def envA : Env :=
  { buildMessages := fun a =>
      [{ role := "system", content := .str a.system_prompt },
       { role := "user", content := .str a.new_user_content }]
    chatComplete := fun r =>
      if r.tools.isSome then
        { choices := [{ message :=
            { role := "assistant"
              content := none
              tool_calls :=
                [{ name := "search"
                   args := .wellFormed "return policy"
                     [{ column := "brand", comparator := "=", value := "acme" }] }] } }] }
      else
        { choices := [{ message :=
            { role := "assistant", content := some "the answer", tool_calls := [] } }] }
    search := fun _ =>
      [{ id := "7", strForRag := "seven text", dict := "d7" },
       { id := "9", strForRag := "nine text", dict := "d9" }] }

/-- A sample one-turn conversation. -/
def msgsA : List ChatMessage :=
  [{ role := "user", content := .str "What is the return policy?" }]

/-- A conversation whose last message has non-string (list) content. -/
def msgsBad : List ChatMessage :=
  [{ role := "user", content := .parts ["image"] }]

/-- The response the sample run constructs (its answer completion's
first choice is the plain-text assistant message of `envA`). -/
def respA : RetrievalResponse :=
  response_of cfgA envA msgsA {} "What is the return policy?"
    { message :=
        { role := "assistant", content := some "the answer", tool_calls := [] } }

/-- A completion whose search tool call carries unparsable arguments. -/
def completionMalformed : ChatCompletion :=
  { choices := [{ message :=
      { role := "assistant"
        content := none
        tool_calls := [{ name := "search", args := .malformed "not json" }] } }] }

end Samples

section Lemmas

/-- On a validated run the trace is exactly the five-call list. -/
theorem run_fst (cfg : Config) (env : Env) (messages : List ChatMessage)
    (o : Overrides) (m : ChatMessage) (q : String)
    (h1 : messages.getLast? = some m) (h2 : m.content = .str q) :
    (run cfg env messages o).1 = run_call_list cfg env messages o q := by
  unfold run
  rw [h1]
  dsimp only
  rw [h2]

/-- A successful run's response is `response_of` at the first answer
choice. -/
theorem run_ok_inv (cfg : Config) (env : Env) (messages : List ChatMessage)
    (o : Overrides) (m : ChatMessage) (q : String) (resp : RetrievalResponse)
    (h1 : messages.getLast? = some m) (h2 : m.content = .str q)
    (h3 : (run cfg env messages o).2 = .ok resp) :
    ∃ fc, (answer_completion cfg env messages o q).choices.head? = some fc ∧
      resp = response_of cfg env messages o q fc := by
  unfold run at h3
  rw [h1] at h3
  dsimp only at h3
  rw [h2] at h3
  dsimp only at h3
  rcases hfc : (answer_completion cfg env messages o q).choices.head? with _ | fc
  · rw [hfc] at h3
    exact absurd h3 (by simp)
  · rw [hfc] at h3
    simp only [Except.ok.injEq] at h3
    exact ⟨fc, rfl, h3.symm⟩

/-- Membership of an optional mode string in a three-element list, as a
disjunction of equalities. -/
theorem contains_mode_iff (x : Option String) (a b : String) :
    ([some a, some b, none].contains x = true) ↔
      (x = some a ∨ x = some b ∨ x = none) := by
  simp [List.contains, List.elem_eq_mem]

/-- Inserting a key absent from a dict appends it. -/
theorem pyDictInsert_not_mem (d : List (String × String)) (k v : String)
    (h : k ∉ d.map Prod.fst) : pyDictInsert d k v = d ++ [(k, v)] := by
  unfold pyDictInsert
  rw [if_neg]
  simp only [List.any_eq_true, decide_eq_true_eq, not_exists, not_and]
  intro p hp
  intro hk
  exact h (hk ▸ List.mem_map_of_mem Prod.fst hp)

/-- A Python dict built from pairs with pairwise-distinct keys is that
association list itself. -/
theorem pyDict_nodup (l : List (String × String))
    (h : (l.map Prod.fst).Nodup) : pyDict l = l := by
  unfold pyDict
  suffices H : ∀ (l acc : List (String × String)),
      ((acc ++ l).map Prod.fst).Nodup →
      l.foldl (fun d p => pyDictInsert d p.1 p.2) acc = acc ++ l by
    simpa using H l [] (by simpa using h)
  intro l
  induction l with
  | nil => intro acc _; simp
  | cons p t ih =>
      intro acc hnd
      rw [List.map_append, List.nodup_append] at hnd
      obtain ⟨hacc, hrest, hdisj⟩ := hnd
      have hk : p.1 ∉ acc.map Prod.fst := by
        intro hmem
        exact hdisj hmem (by simp)
      rw [List.foldl_cons, pyDictInsert_not_mem acc p.1 p.2 hk]
      have hside : ((acc ++ [(p.1, p.2)]) ++ t).map Prod.fst |>.Nodup := by
        rw [List.append_assoc, List.singleton_append, Prod.mk.eta,
          List.map_append, List.nodup_append]
        exact ⟨hacc, hrest, hdisj⟩
      have h' := ih (acc ++ [(p.1, p.2)]) hside
      rw [h', List.append_assoc, List.singleton_append, Prod.mk.eta]

end Lemmas

section Claims

/-- C1: for every messages list whose last element's content is not a
string, `run` fails with the invalid-input error and an empty call
trace: no chat-completion call, no retrieval call, no `build_messages`
call, and no `RetrievalResponse` is constructed. -/
theorem run_nonstring_last_invalid_input (cfg : Config) (env : Env)
    (messages : List ChatMessage) (o : Overrides) (m : ChatMessage)
    (h1 : messages.getLast? = some m) (h2 : ∀ s, m.content ≠ .str s) :
    run cfg env messages o = ([], .error .invalidInput) := by
  unfold run
  rw [h1]
  dsimp only
  cases hc : m.content with
  | str s => exact absurd hc (h2 s)
  | parts l => rfl
  | null => rfl

/-- Witness for C1: a one-message conversation with list-valued
content fails with the invalid-input error and issues no call. -/
theorem run_nonstring_last_invalid_input_witness :
    run cfgA envA msgsBad {} = ([], .error .invalidInput) :=
  run_nonstring_last_invalid_input cfgA envA msgsBad {}
    { role := "user", content := .parts ["image"] } rfl
    (fun _ h => Content.noConfusion h)

/-- C10: on the empty messages list `run` fails with the index error
raised by `messages[-1]`, not with the invalid-input error, and issues
no external call, so a non-empty messages list is an unstated
precondition of the pipeline. -/
theorem run_empty_messages_index_error (cfg : Config) (env : Env)
    (o : Overrides) :
    run cfg env [] o = ([], .error .indexError) ∧
      RunError.indexError ≠ RunError.invalidInput :=
  ⟨rfl, fun h => RunError.noConfusion h⟩

/-- Witness for C10 at concrete configuration and environment. -/
theorem run_empty_messages_index_error_witness :
    run cfgA envA [] {} = ([], .error .indexError) ∧
      RunError.indexError ≠ RunError.invalidInput :=
  run_empty_messages_index_error cfgA envA {}

/-- C6: a well-formed search tool invocation yields exactly its parsed
query and filters; an absent or malformed search tool invocation falls
back to the original query verbatim with an empty filter list (the
extractor is total, so the fallback never surfaces an error). -/
theorem extract_search_arguments_fallback (q : String) (c : ChatCompletion) :
    (∀ qt fs, searchToolCall? c = some (.wellFormed qt fs) →
      extract_search_arguments q c = (qt, fs)) ∧
    ((∀ qt fs, searchToolCall? c ≠ some (.wellFormed qt fs)) →
      extract_search_arguments q c = (q, [])) := by
  rcases h : searchToolCall? c with _ | args
  · refine ⟨fun qt fs hh => Option.noConfusion hh, fun _ => ?_⟩
    unfold extract_search_arguments
    rw [h]
  · rcases args with ⟨qt, fs⟩ | raw
    · refine ⟨fun qt' fs' hh => ?_, fun hall => absurd rfl (hall qt fs)⟩
      injection hh with hh2
      injection hh2 with ha hb
      subst ha
      subst hb
      unfold extract_search_arguments
      rw [h]
    · refine ⟨fun qt fs hh => ?_, fun _ => ?_⟩
      · injection hh with hh2
        exact ToolArgs.noConfusion hh2
      · unfold extract_search_arguments
        rw [h]

/-- Witness for C6: a completion whose search tool call carries an
unparsable payload falls back to the original query and no filters. -/
theorem extract_search_arguments_fallback_witness :
    extract_search_arguments "orig query" completionMalformed =
      ("orig query", []) := by
  apply (extract_search_arguments_fallback "orig query" completionMalformed).2
  intro qt fs h
  rw [show searchToolCall? completionMalformed =
    some (ToolArgs.malformed "not json") from rfl] at h
  simp at h

/-- C2: on every validated run the retrieval gateway is invoked exactly
once, with query text and filters taken from argument extraction on the
first completion, `top` equal to the `top` override or 3 when absent,
vector search enabled iff `retrieval_mode` is "vectors", "hybrid", or
absent, and text search enabled iff it is "text", "hybrid", or absent. -/
theorem run_search_call_once_with_flags (cfg : Config) (env : Env)
    (messages : List ChatMessage) (o : Overrides) (m : ChatMessage)
    (q : String)
    (h1 : messages.getLast? = some m) (h2 : m.content = .str q) :
    searchCallsOf (run cfg env messages o) =
      [search_request cfg env messages o q] ∧
    ((search_request cfg env messages o q).enable_vector_search = true ↔
      (o.retrieval_mode = some "vectors" ∨ o.retrieval_mode = some "hybrid" ∨
        o.retrieval_mode = none)) ∧
    ((search_request cfg env messages o q).enable_text_search = true ↔
      (o.retrieval_mode = some "text" ∨ o.retrieval_mode = some "hybrid" ∨
        o.retrieval_mode = none)) ∧
    (search_request cfg env messages o q).top = o.top.getD 3 ∧
    ((search_request cfg env messages o q).query_text,
        (search_request cfg env messages o q).filters) =
      extract_search_arguments q (query_completion cfg env messages q) := by
  refine ⟨?_, ?_, ?_, rfl, rfl⟩
  · unfold searchCallsOf
    rw [run_fst cfg env messages o m q h1 h2]
    rfl
  · exact contains_mode_iff o.retrieval_mode "vectors" "hybrid"
  · exact contains_mode_iff o.retrieval_mode "text" "hybrid"

/-- Witness for C2: the no-override sample run searches once, with the
tool call's refined query and filters, both modes on, and `top = 3`. -/
theorem run_search_call_once_with_flags_witness :
    searchCallsOf (run cfgA envA msgsA {}) =
      [{ query_text := "return policy"
         top := 3
         enable_vector_search := true
         enable_text_search := true
         filters := [{ column := "brand", comparator := "=", value := "acme" }] }] :=
  (run_search_call_once_with_flags cfgA envA msgsA {}
      { role := "user", content := .str "What is the return policy?" }
      "What is the return policy?" rfl rfl).1.trans (by decide)

/-- C5: on every validated run the first chat-completion call is at
temperature 0.0, n = 1, with the search tool schema, automatic tool
choice and a 500-token output cap; the second is non-streaming, n = 1,
with a 1024-token output cap and temperature the `temperature`
override or 0.3 when absent. -/
theorem run_chat_call_parameters (cfg : Config) (env : Env)
    (messages : List ChatMessage) (o : Overrides) (m : ChatMessage)
    (q : String)
    (h1 : messages.getLast? = some m) (h2 : m.content = .str q) :
    chatCallsOf (run cfg env messages o) =
      [query_chat_request cfg env messages q,
       answer_chat_request cfg env messages o q] ∧
    (query_chat_request cfg env messages q).temperature = 0 ∧
    (query_chat_request cfg env messages q).n = 1 ∧
    (query_chat_request cfg env messages q).tools =
      some build_search_function ∧
    (query_chat_request cfg env messages q).tool_choice = some "auto" ∧
    (query_chat_request cfg env messages q).max_tokens = 500 ∧
    (answer_chat_request cfg env messages o q).stream = some false ∧
    (answer_chat_request cfg env messages o q).n = 1 ∧
    (answer_chat_request cfg env messages o q).max_tokens = 1024 ∧
    (answer_chat_request cfg env messages o q).temperature =
      o.temperature.getD (3 / 10) := by
  refine ⟨?_, rfl, rfl, rfl, rfl, rfl, rfl, rfl, rfl, rfl⟩
  unfold chatCallsOf
  rw [run_fst cfg env messages o m q h1 h2]
  rfl

/-- Witness for C5: the sample run's two chat calls carry temperatures
0 and 3/10 and output caps 500 and 1024. -/
theorem run_chat_call_parameters_witness :
    (chatCallsOf (run cfgA envA msgsA {})).map ChatRequest.temperature =
      [0, 3 / 10] ∧
    (chatCallsOf (run cfgA envA msgsA {})).map ChatRequest.max_tokens =
      [500, 1024] := by
  rw [(run_chat_call_parameters cfgA envA msgsA {}
    { role := "user", content := .str "What is the return policy?" }
    "What is the return policy?" rfl rfl).1]
  exact ⟨rfl, rfl⟩

/-- C9: on every validated run each prompt-building call receives a
ceiling of (context limit − that phase's reserved budget: 500 for query
generation, 1024 for answer generation), each completion call's output
cap equals its phase's reserved budget, and ceiling plus cap equals the
model's context limit for both phases. -/
theorem run_token_budget (cfg : Config) (env : Env)
    (messages : List ChatMessage) (o : Overrides) (m : ChatMessage)
    (q : String)
    (h1 : messages.getLast? = some m) (h2 : m.content = .str q) :
    buildCallsOf (run cfg env messages o) =
      [query_build_args cfg messages q,
       answer_build_args cfg env messages o q] ∧
    chatCallsOf (run cfg env messages o) =
      [query_chat_request cfg env messages q,
       answer_chat_request cfg env messages o q] ∧
    (query_build_args cfg messages q).max_tokens =
      cfg.chat_token_limit - 500 ∧
    (answer_build_args cfg env messages o q).max_tokens =
      cfg.chat_token_limit - 1024 ∧
    (query_chat_request cfg env messages q).max_tokens = 500 ∧
    (answer_chat_request cfg env messages o q).max_tokens = 1024 ∧
    (query_build_args cfg messages q).max_tokens +
        (query_chat_request cfg env messages q).max_tokens =
      cfg.chat_token_limit ∧
    (answer_build_args cfg env messages o q).max_tokens +
        (answer_chat_request cfg env messages o q).max_tokens =
      cfg.chat_token_limit := by
  refine ⟨?_, ?_, rfl, rfl, rfl, rfl, ?_, ?_⟩
  · unfold buildCallsOf
    rw [run_fst cfg env messages o m q h1 h2]
    rfl
  · unfold chatCallsOf
    rw [run_fst cfg env messages o m q h1 h2]
    rfl
  · show cfg.chat_token_limit - 500 + 500 = cfg.chat_token_limit
    omega
  · show cfg.chat_token_limit - 1024 + 1024 = cfg.chat_token_limit
    omega

/-- Witness for C9: with a 4096-token context limit the sample run's
prompt ceilings are 3596 and 3072, against caps 500 and 1024. -/
theorem run_token_budget_witness :
    (buildCallsOf (run cfgA envA msgsA {})).map BuildArgs.max_tokens =
      [3596, 3072] ∧
    (chatCallsOf (run cfgA envA msgsA {})).map ChatRequest.max_tokens =
      [500, 1024] := by
  obtain ⟨hb, hc, -⟩ := run_token_budget cfgA envA msgsA {}
    { role := "user", content := .str "What is the return policy?" }
    "What is the return policy?" rfl rfl
  rw [hb, hc]
  exact ⟨rfl, rfl⟩

/-- C3: in every successful run with pairwise-distinct result ids,
`data_points` is exactly the association of each returned item's id to
its dict form, in result order: no key beyond the returned ids, none
missing, each mapped one-to-one. -/
theorem run_data_points_exact_ids (cfg : Config) (env : Env)
    (messages : List ChatMessage) (o : Overrides) (m : ChatMessage)
    (q : String) (resp : RetrievalResponse)
    (h1 : messages.getLast? = some m) (h2 : m.content = .str q)
    (h3 : (run cfg env messages o).2 = .ok resp)
    (h4 : ((results cfg env messages o q).map RetrievalItem.id).Nodup) :
    resp.context.data_points =
      (results cfg env messages o q).map (fun it => (it.id, it.dict)) := by
  obtain ⟨fc, hfc, hresp⟩ := run_ok_inv cfg env messages o m q resp h1 h2 h3
  subst hresp
  show pyDict ((results cfg env messages o q).map
    (fun it => (it.id, it.dict))) = _
  apply pyDict_nodup
  simpa [List.map_map, Function.comp] using h4

/-- Witness for C3: the sample run's data points map the two returned
ids to their dict forms, in order. -/
theorem run_data_points_exact_ids_witness :
    respA.context.data_points = [("7", "d7"), ("9", "d9")] :=
  (run_data_points_exact_ids cfgA envA msgsA {}
      { role := "user", content := .str "What is the return policy?" }
      "What is the return policy?" respA rfl rfl rfl (by decide)).trans
    (by decide)

/-- C4: every successful run returns exactly four thought steps, in
the fixed order query-generation prompt, search invocation, search
results, answer-generation prompt; the second step's description is
the query text passed to the (single) retrieval call and its props
record the top, the two mode flags, and the filters of that call. -/
theorem run_thoughts_four_steps (cfg : Config) (env : Env)
    (messages : List ChatMessage) (o : Overrides) (m : ChatMessage)
    (q : String) (resp : RetrievalResponse)
    (h1 : messages.getLast? = some m) (h2 : m.content = .str q)
    (h3 : (run cfg env messages o).2 = .ok resp) :
    resp.context.thoughts.map ThoughtStep.title =
      ["Prompt to generate search arguments",
       "Search using generated search arguments",
       "Search results",
       "Prompt to generate answer"] ∧
    searchCallsOf (run cfg env messages o) =
      [search_request cfg env messages o q] ∧
    (resp.context.thoughts.get? 1).map ThoughtStep.description =
      some (.text (search_request cfg env messages o q).query_text) ∧
    (resp.context.thoughts.get? 1).map ThoughtStep.props =
      some (some
        [("top", .int (search_request cfg env messages o q).top),
         ("vector_search",
           .bool (search_request cfg env messages o q).enable_vector_search),
         ("text_search",
           .bool (search_request cfg env messages o q).enable_text_search),
         ("filters",
           .filters (search_request cfg env messages o q).filters)]) := by
  obtain ⟨fc, hfc, hresp⟩ := run_ok_inv cfg env messages o m q resp h1 h2 h3
  subst hresp
  refine ⟨rfl, ?_, rfl, rfl⟩
  unfold searchCallsOf
  rw [run_fst cfg env messages o m q h1 h2]
  rfl

/-- Witness for C4: the sample run's four thought titles in order, and
the second step's description is the refined query actually searched. -/
theorem run_thoughts_four_steps_witness :
    respA.context.thoughts.map ThoughtStep.title =
      ["Prompt to generate search arguments",
       "Search using generated search arguments",
       "Search results",
       "Prompt to generate answer"] ∧
    (respA.context.thoughts.get? 1).map ThoughtStep.description =
      some (.text "return policy") := by
  have h := run_thoughts_four_steps cfgA envA msgsA {}
    { role := "user", content := .str "What is the return policy?" }
    "What is the return policy?" respA rfl rfl rfl
  exact ⟨h.1, h.2.2.1.trans (by decide)⟩

/-- Counterexample for C7: at a concrete run returning two items, the
user content of the answer-generation prompt is not the original query
followed by "\n\nSources:\n" and the plain concatenation of
`"[id]: <renderable text>\n\n"` renderings — the code renders with no
space after the colon and joins the renderings with an extra "\n". -/
theorem run_answer_user_content_plain_concat_counterexample :
    ((buildCallsOf (run cfgA envA msgsA {})).get? 1).map
        BuildArgs.new_user_content ≠
      some ("What is the return policy?" ++ "\n\nSources:\n" ++
        String.join
          ((results cfgA envA msgsA {} "What is the return policy?").map
            (fun it => "[" ++ it.id ++ "]: " ++ it.strForRag ++ "\n\n"))) := by
  decide

/-- C7 as amended: the user content of the answer-generation prompt is
the original query, then "\n\nSources:\n", then the renderings
`"[id]:<renderable text>\n\n"` (no space after the colon) joined with
"\n" between consecutive entries, in result order. -/
theorem run_answer_user_content_joined (cfg : Config) (env : Env)
    (messages : List ChatMessage) (o : Overrides) (m : ChatMessage)
    (q : String)
    (h1 : messages.getLast? = some m) (h2 : m.content = .str q) :
    ((buildCallsOf (run cfg env messages o)).get? 1).map
        BuildArgs.new_user_content =
      some (q ++ "\n\nSources:\n" ++ String.intercalate "\n"
        ((results cfg env messages o q).map
          (fun it => "[" ++ it.id ++ "]:" ++ it.strForRag ++ "\n\n"))) := by
  unfold buildCallsOf
  rw [run_fst cfg env messages o m q h1 h2]
  rfl

/-- Witness for the amended C7: the sample run's answer prompt user
content, fully evaluated. -/
theorem run_answer_user_content_joined_witness :
    ((buildCallsOf (run cfgA envA msgsA {})).get? 1).map
        BuildArgs.new_user_content =
      some ("What is the return policy?\n\nSources:\n[7]:seven text\n\n\n[9]:nine text\n\n") :=
  (run_answer_user_content_joined cfgA envA msgsA {}
      { role := "user", content := .str "What is the return policy?" }
      "What is the return policy?" rfl rfl).trans (by decide)

/-- C8: whenever a non-empty deployment identifier is configured, both
chat-completion calls of a successful run address the deployment, and
the model-metadata props of the first and fourth thought steps carry
both the base model name and the deployment; when no deployment is
configured, the calls address the base model name and those props
carry only the base model name. -/
theorem run_deployment_addressing (cfg : Config) (env : Env)
    (messages : List ChatMessage) (o : Overrides) (m : ChatMessage)
    (q : String) (resp : RetrievalResponse)
    (h1 : messages.getLast? = some m) (h2 : m.content = .str q)
    (h3 : (run cfg env messages o).2 = .ok resp) :
    (∀ d, cfg.chat_deployment = some d → d ≠ "" →
      ((chatCallsOf (run cfg env messages o)).all
        (fun r => r.model = d)) = true ∧
      (resp.context.thoughts.get? 0).map ThoughtStep.props =
        some (some [("model", .str cfg.chat_model),
                    ("deployment", .str d)]) ∧
      (resp.context.thoughts.get? 3).map ThoughtStep.props =
        some (some [("model", .str cfg.chat_model),
                    ("deployment", .str d)])) ∧
    (cfg.chat_deployment = none →
      ((chatCallsOf (run cfg env messages o)).all
        (fun r => r.model = cfg.chat_model)) = true ∧
      (resp.context.thoughts.get? 0).map ThoughtStep.props =
        some (some [("model", .str cfg.chat_model)]) ∧
      (resp.context.thoughts.get? 3).map ThoughtStep.props =
        some (some [("model", .str cfg.chat_model)])) := by
  obtain ⟨fc, hfc, hresp⟩ := run_ok_inv cfg env messages o m q resp h1 h2 h3
  subst hresp
  have hchat : chatCallsOf (run cfg env messages o) =
      [query_chat_request cfg env messages q,
       answer_chat_request cfg env messages o q] := by
    unfold chatCallsOf
    rw [run_fst cfg env messages o m q h1 h2]
    rfl
  constructor
  · intro d hd hne
    have hres : resolvedModel cfg = d := by
      unfold resolvedModel
      rw [hd]
      dsimp only
      rw [if_neg hne]
    have hprops : modelProps cfg =
        [("model", .str cfg.chat_model), ("deployment", .str d)] := by
      unfold modelProps
      rw [hd]
      dsimp only
      rw [if_neg hne]
    refine ⟨?_, ?_, ?_⟩
    · rw [hchat]
      simp only [List.all_cons, List.all_nil, Bool.and_true]
      rw [show (query_chat_request cfg env messages q).model =
            resolvedModel cfg from rfl,
          show (answer_chat_request cfg env messages o q).model =
            resolvedModel cfg from rfl, hres]
      simp
    · show some (some (modelProps cfg)) = _
      rw [hprops]
    · show some (some (modelProps cfg)) = _
      rw [hprops]
  · intro hd
    have hres : resolvedModel cfg = cfg.chat_model := by
      unfold resolvedModel
      rw [hd]
    have hprops : modelProps cfg = [("model", .str cfg.chat_model)] := by
      unfold modelProps
      rw [hd]
    refine ⟨?_, ?_, ?_⟩
    · rw [hchat]
      simp only [List.all_cons, List.all_nil, Bool.and_true]
      rw [show (query_chat_request cfg env messages q).model =
            resolvedModel cfg from rfl,
          show (answer_chat_request cfg env messages o q).model =
            resolvedModel cfg from rfl, hres]
      simp
    · show some (some (modelProps cfg)) = _
      rw [hprops]
    · show some (some (modelProps cfg)) = _
      rw [hprops]

/-- Witness for C8: the sample configuration deploys "dep": both chat
calls address "dep", and the first step's props carry both names. -/
theorem run_deployment_addressing_witness :
    ((chatCallsOf (run cfgA envA msgsA {})).all
      (fun r => r.model = "dep")) = true ∧
    (respA.context.thoughts.get? 0).map ThoughtStep.props =
      some (some [("model", .str "gpt"), ("deployment", .str "dep")]) := by
  have h := (run_deployment_addressing cfgA envA msgsA {}
    { role := "user", content := .str "What is the return policy?" }
    "What is the return policy?" respA rfl rfl rfl).1 "dep" rfl
    (by decide)
  exact ⟨h.1, h.2.1⟩

end Claims

end RagAdvanced
